import Mathlib

/-!
Shallow embedding of the f2b_gateway repository (`src/config.py`, `src/app.py`):
round-robin instance selection (`itertools.cycle`), bounded retry with
exponential backoff inside `call_upstream`, a per-service circuit breaker in
the style of the `pybreaker` library, the JWT gate (`authenticate` /
`verify_jwt_from_header`) and the catch-all proxy route.  Network calls, JWT
decoding and wall-clock time are modelled as oracles passed in as arguments.
-/

namespace F2B

/-- Mirror of `config.SERVICES`: service name to the ordered list of instance
base URLs, in configured (insertion) order. -/
def SERVICES : List (String × List String) :=
  [("users", ["http://localhost:5001", "http://localhost:5003"]),
   ("orders", ["http://localhost:5002"])]

/-- Mirror of `config.RETRIES` (number of retries on transient failures). -/
def RETRIES : Nat := 2

/-- Mirror of `config.BACKOFF_FACTOR` (the Python float `0.3`), as a rational. -/
def BACKOFF_FACTOR : ℚ := 3 / 10

/-- Mirror of `config.CB_FAIL_MAX`. -/
def CB_FAIL_MAX : Nat := 5

/-- Mirror of `config.CB_RESET_TIMEOUT` in seconds. -/
def CB_RESET_TIMEOUT : Nat := 30

/-- Boolean list-prefix test on characters, mirroring Python `str.startswith`. -/
def listPfx : List Char → List Char → Bool
  | [], _ => true
  | _ :: _, [] => false
  | a :: as, b :: bs => a == b && listPfx as bs

/-- Python `s.startswith(p)` on the character sequences of the two strings. -/
def strStarts (s p : String) : Bool :=
  listPfx p.data s.data

/-- Python `s[n:]` (used for stripping the 7-character `"Bearer "` marker). -/
def strDrop (s : String) (n : Nat) : String :=
  ⟨s.data.drop n⟩

/-- Python `s.strip()`: drop whitespace from both ends. -/
def strTrim (s : String) : String :=
  ⟨((s.data.dropWhile Char.isWhitespace).reverse.dropWhile Char.isWhitespace).reverse⟩

/-- Python `s.lower()`. -/
def strLower (s : String) : String :=
  ⟨s.data.map Char.toLower⟩

/-- An HTTP response produced by an upstream instance (`httpx` response:
status code and body). -/
structure HttpResp where
  status : Nat
  content : String
deriving DecidableEq, Repr

/-- Outcome of one network sub-attempt inside `call_upstream`: either an
HTTP-level response of any status, or a transient `httpx.TransportError` /
`httpx.ReadTimeout`. -/
inductive NetResult where
  | ok (r : HttpResp)
  | err
deriving DecidableEq, Repr

/-- The backoff computed at line 92 of `app.py`:
`BACKOFF_FACTOR * (2 ** attempt)`. -/
def backoff (attempt : Nat) : ℚ :=
  BACKOFF_FACTOR * 2 ^ attempt

/-- The retry loop of `call_upstream` (lines 77-96 of `app.py`): for
`attempt in range(RETRIES + 1)` try the request; on success return the
response; on a transient error sleep `backoff attempt` and continue; when the
loop ends, re-raise the last exception.  The oracle `net` gives the outcome of
each sub-attempt; the result collects the sleeps performed, in order, and
`some resp` for a returned response or `none` for the re-raised exception. -/
def retryLoop (net : Nat → NetResult) : Nat → Nat → List ℚ × Option HttpResp
  | _, 0 => ([], none)
  | attempt, fuel + 1 =>
    match net attempt with
    | .ok r => ([], some r)
    | .err =>
      let rest := retryLoop net (attempt + 1) fuel
      (backoff attempt :: rest.1, rest.2)

/-- The body of `call_upstream` relevant to retry behaviour: the loop starts
at attempt 0 and performs at most `RETRIES + 1` sub-attempts. -/
def call_upstream (net : Nat → NetResult) : List ℚ × Option HttpResp :=
  retryLoop net 0 (RETRIES + 1)

/-- Hop-by-hop header names removed at line 72 of `app.py`. -/
def HOP_HEADERS : List String :=
  ["host", "content-length", "transfer-encoding", "connection", "keep-alive"]

/-- Header construction at line 72 of `app.py`: keep exactly the request
headers whose lower-cased name is not in the hop-by-hop list.  The claim
injection of lines 73-74 is a comment in the source, so nothing is added. -/
def build_forward_headers (reqHeaders : List (String × String)) : List (String × String) :=
  reqHeaders.filter (fun kv => !(HOP_HEADERS.contains (strLower kv.1)))

/-- States of a `pybreaker.CircuitBreaker`. -/
inductive BState where
  | closed
  | opened
  | halfOpen
deriving DecidableEq, Repr

/-- A `pybreaker.CircuitBreaker`: state, failure counter, and the time at
which the breaker last entered the open state. -/
structure Breaker where
  state : BState
  failCount : Nat
  openedAt : Nat
deriving DecidableEq, Repr

/-- A freshly constructed breaker (line 36 of `app.py`): closed, counter 0. -/
def breakerInit : Breaker :=
  ⟨.closed, 0, 0⟩

/-- What a call through the breaker decorator produces. -/
inductive CallOutcome where
  | resp (r : HttpResp)
  | cbError
  | netError
deriving DecidableEq, Repr

/-- Semantics of `pybreaker.CircuitBreaker.call` applied to the guarded
function, whose result is `some resp` (a return value) or `none` (it raised
the transient exception).  Returns the outcome seen by the caller, the new
breaker, and whether the guarded function was actually invoked.
Closed: success resets the counter; a failure increments it and, at
`CB_FAIL_MAX`, opens the breaker and raises `CircuitBreakerError`.
Open: before `CB_RESET_TIMEOUT` has elapsed the call is rejected with
`CircuitBreakerError` without invoking the function; afterwards a half-open
trial runs: success closes and resets, failure re-opens with
`CircuitBreakerError`. -/
def breakerCall (b : Breaker) (now : Nat) (fnResult : Option HttpResp) :
    CallOutcome × Breaker × Bool :=
  match b.state with
  | .closed =>
    match fnResult with
    | some r => (.resp r, ⟨.closed, 0, b.openedAt⟩, true)
    | none =>
      if CB_FAIL_MAX ≤ b.failCount + 1 then
        (.cbError, ⟨.opened, b.failCount + 1, now⟩, true)
      else
        (.netError, ⟨.closed, b.failCount + 1, b.openedAt⟩, true)
  | .opened =>
    if now < b.openedAt + CB_RESET_TIMEOUT then
      (.cbError, b, false)
    else
      match fnResult with
      | some r => (.resp r, ⟨.closed, 0, b.openedAt⟩, true)
      | none => (.cbError, ⟨.opened, b.failCount + 1, now⟩, true)
  | .halfOpen =>
    match fnResult with
    | some r => (.resp r, ⟨.closed, 0, b.openedAt⟩, true)
    | none => (.cbError, ⟨.opened, b.failCount + 1, now⟩, true)

/-- One `next()` on the `itertools.cycle` of a service's instance list, with
the cycle position held as a counter: yields element `cursor mod length`
(`none` models `StopIteration` on an empty sequence). -/
def cyclePick (l : List String) (cursor : Nat) : Option String :=
  l[cursor % l.length]?

/-- `choose_instance` viewed per service (lines 45-49 of `app.py`): return
the next element of the cycle and the advanced cursor. -/
def choose_instance (l : List String) (cursor : Nat) : Option String × Nat :=
  (cyclePick l cursor, cursor + 1)

/-- The stream of instances produced by `k` consecutive `choose_instance`
calls starting at `cursor`. -/
def selectorRun (l : List String) (cursor : Nat) : Nat → List (Option String)
  | 0 => []
  | k + 1 => cyclePick l cursor :: selectorRun l (cursor + 1) k

/-- Result of `forward_request` (lines 62-113 of `app.py`). -/
inductive DispatchResult where
  | unknownService
  | circuitOpen
  | response (r : HttpResp)
  | allFailed
  | stopIteration
  | valueErr
deriving DecidableEq, Repr

/-- HTTP status of each `forward_request` outcome as produced by `app.py`
(`stopIteration` / `valueErr` are uncaught exceptions, Flask's 500). -/
def statusOf : DispatchResult → Nat
  | .unknownService => 502
  | .circuitOpen => 503
  | .response r => r.status
  | .allFailed => 502
  | .stopIteration => 500
  | .valueErr => 500

/-- Trace of one dispatch: the instances selected for an attempt, in order,
the backoff sleeps performed, the result, and the final cursor and breaker. -/
structure DispatchTrace where
  attempted : List String
  sleeps : List ℚ
  result : DispatchResult
  cursor : Nat
  breaker : Breaker
deriving DecidableEq, Repr

/-- The instance loop of `forward_request` (lines 99-113): for each of `fuel`
attempts, pick the next instance from the cycle, run `call_upstream` through
the breaker; a `CircuitBreakerError` returns 503 at once, any other exception
moves on to the next instance, a response is returned at once; when the loop
ends, all instances failed.  `net i` is the network oracle of attempt `i` and
`times i` the wall-clock time at which the breaker examines attempt `i`. -/
def forward_loop (l : List String) (net : Nat → Nat → NetResult) (times : Nat → Nat) :
    Nat → Nat → Nat → Breaker → DispatchTrace
  | _, 0, c, b => ⟨[], [], .allFailed, c, b⟩
  | i, fuel + 1, c, b =>
    match cyclePick l c with
    | none => ⟨[], [], .stopIteration, c, b⟩
    | some inst =>
      let fnRes := call_upstream (net i)
      let bc := breakerCall b (times i) fnRes.2
      let slept := if bc.2.2 then fnRes.1 else []
      match bc.1 with
      | .resp r => ⟨[inst], slept, .response r, c + 1, bc.2.1⟩
      | .cbError => ⟨[inst], slept, .circuitOpen, c + 1, bc.2.1⟩
      | .netError =>
        let rest := forward_loop l net times (i + 1) fuel (c + 1) bc.2.1
        ⟨inst :: rest.attempted, slept ++ rest.sleeps, rest.result, rest.cursor, rest.breaker⟩

/-- `forward_request` for one service whose instance list, breaker and cycle
cursor are given: the loop bound is `len(SERVICES.get(service, []))`, the
number of configured instances. -/
def forward_request (l : List String) (b : Breaker) (net : Nat → Nat → NetResult)
    (times : Nat → Nat) (cursor : Nat) : DispatchTrace :=
  forward_loop l net times 0 l.length cursor b

/-- The mutable per-service state of the gateway process: the cycle cursors
(`_service_iters`) and the circuit breakers (`_circuit_breakers`). -/
structure GatewayState where
  cursors : List (String × Nat)
  breakers : List (String × Breaker)
deriving DecidableEq, Repr

/-- Module initialisation (lines 30-38 of `app.py`): one cycle per service in
`SERVICES` and one breaker per service, both keyed by exactly the registry's
keys.  Note `itertools.cycle` accepts an empty list, so this never fails. -/
def initState (registry : List (String × List String)) : GatewayState :=
  ⟨registry.map (fun p => (p.1, 0)), registry.map (fun p => (p.1, breakerInit))⟩

/-- Write-back of a per-service value into one of the state maps. -/
def updateAssoc {α : Type} (m : List (String × α)) (k : String) (v : α) :
    List (String × α) :=
  m.map (fun p => if p.1 = k then (k, v) else p)

/-- Observable outcome of `forward_request` at the gateway level. -/
structure GwOutcome where
  result : DispatchResult
  attempted : List String
  sleeps : List ℚ
  state : GatewayState
deriving DecidableEq, Repr

/-- `forward_request` against the process state (lines 62-66 and 99-113):
`_circuit_breakers.get(service)` missing means the "Unknown service" 502;
otherwise run the instance loop with the service's cursor and write the
advanced cursor and new breaker back.  A missing cycle with a non-empty
instance list would be `choose_instance`'s uncaught `ValueError`. -/
def forward_request_gw (registry : List (String × List String)) (st : GatewayState)
    (service : String) (net : Nat → Nat → NetResult) (times : Nat → Nat) : GwOutcome :=
  match List.lookup service st.breakers with
  | none => ⟨.unknownService, [], [], st⟩
  | some b =>
    let instances := (List.lookup service registry).getD []
    match List.lookup service st.cursors with
    | none =>
      if instances.length = 0 then ⟨.allFailed, [], [], st⟩
      else ⟨.valueErr, [], [], st⟩
    | some cursor =>
      let t := forward_request instances b net times cursor
      ⟨t.result, t.attempted, t.sleeps,
        ⟨updateAssoc st.cursors service t.cursor, updateAssoc st.breakers service t.breaker⟩⟩

/-- Outcome of `jwt.decode` at line 58 of `app.py`, as an oracle result:
success with the payload (a dict of claims), `InvalidTokenError`, or any
other exception. -/
inductive DecodeOutcome where
  | ok (payload : List (String × String))
  | invalid
  | otherError
deriving DecidableEq, Repr

/-- Outcome of the `authenticate` before-request hook (lines 116-133). -/
inductive AuthOutcome where
  | proceed (payload : List (String × String))
  | missingAuth
  | invalidToken
  | jwtError
deriving DecidableEq, Repr

/-- `authenticate` + `verify_jwt_from_header` (lines 52-59 and 121-133 of
`app.py`): an absent or empty `Authorization` header is the 401
"missing authorization"; a header without the `"Bearer "` marker raises
`InvalidTokenError` (401 "invalid_token"); otherwise the token
`auth.split(" ", 1)[1].strip()` is decoded and the payload is attached
unexamined — no claim field is ever checked. -/
def authenticate (decode : String → DecodeOutcome) (auth : Option String) : AuthOutcome :=
  match auth with
  | none => .missingAuth
  | some a =>
    if a = "" then .missingAuth
    else if strStarts a "Bearer " then
      match decode (strTrim (strDrop a 7)) with
      | .ok p => .proceed p
      | .invalid => .invalidToken
      | .otherError => .jwtError
    else .invalidToken

/-- Observable outcome of one request through the proxy route. -/
structure ProxyResult where
  status : Nat
  attempted : List String
  sleeps : List ℚ
  state : GatewayState
deriving DecidableEq, Repr

/-- One request to `/{service}/{path}` (lines 116-146 of `app.py`): the
before-request hook skips paths under `/health` and `/metrics` and otherwise
rejects the request with 401 unless `authenticate` proceeds; the route handler
then answers 404 for a service name not in `SERVICES` and otherwise delegates
to `forward_request`. -/
def handle_proxy (registry : List (String × List String)) (decode : String → DecodeOutcome)
    (net : Nat → Nat → NetResult) (times : Nat → Nat) (st : GatewayState)
    (auth : Option String) (service path : String) : ProxyResult :=
  let fullPath := "/" ++ service ++ "/" ++ path
  let exempt := strStarts fullPath "/health" || strStarts fullPath "/metrics"
  let authBlocked :=
    if exempt then false
    else
      match authenticate decode auth with
      | .proceed _ => false
      | _ => true
  if authBlocked then ⟨401, [], [], st⟩
  else if (List.lookup service registry).isNone then ⟨404, [], [], st⟩
  else
    let r := forward_request_gw registry st service net times
    ⟨statusOf r.result, r.attempted, r.sleeps, r.state⟩

/-- A network oracle on which every sub-attempt raises a transient error. -/
def allFailNet : Nat → NetResult := fun _ => .err

/-- A per-attempt network oracle on which every sub-attempt fails. -/
def allFailNet2 : Nat → Nat → NetResult := fun _ _ => .err

/-- A network oracle answering HTTP 200 at once. -/
def okNet2 : Nat → Nat → NetResult := fun _ _ => .ok ⟨200, "ok"⟩

/-- A network oracle answering an HTTP 503 error response at once. -/
def err503Net2 : Nat → Nat → NetResult := fun _ _ => .ok ⟨503, "server error"⟩

/-- A clock oracle frozen at time 0. -/
def zeroTimes : Nat → Nat := fun _ => 0

/-- A decode oracle accepting every token with a payload that carries no
tenant/profile field at all. -/
def noClaimDecode : String → DecodeOutcome := fun _ => .ok []

/-- A decode oracle rejecting every token as invalid. -/
def badDecode : String → DecodeOutcome := fun _ => .invalid

/-- The gateway state right after module initialisation on the real config. -/
def st0 : GatewayState := initState SERVICES

/-- The registry of a hypothetical deployment configuring a service with an
empty instance list. -/
def emptyRegistry : List (String × List String) := [("svc", [])]

/-- The sequence of instances the cycle would hand out over `k` consecutive
picks starting at `cursor` (analysis helper for the dispatch loop). -/
def picksFrom (l : List String) : Nat → Nat → List String
  | _, 0 => []
  | c, k + 1 => (cyclePick l c).getD "" :: picksFrom l (c + 1) k

/-! Helper lemmas. -/

lemma cyclePick_eq_getElem (l : List String) (c : Nat) (h : 0 < l.length) :
    cyclePick l c = some (l.get ⟨c % l.length, Nat.mod_lt c h⟩) := by
  simp [cyclePick, List.getElem?_eq_getElem (Nat.mod_lt c h)]

lemma cyclePick_isSome (l : List String) (c : Nat) (h : 0 < l.length) :
    ∃ x, cyclePick l c = some x :=
  ⟨_, cyclePick_eq_getElem l c h⟩

/-- One-step unfolding of the retry loop on a failing sub-attempt. -/
lemma retryLoop_err (net : Nat → NetResult) (a f : Nat) (ha : net a = .err) :
    retryLoop net a (f + 1) =
      (backoff a :: (retryLoop net (a + 1) f).1, (retryLoop net (a + 1) f).2) := by
  simp only [retryLoop, ha]

/-- When every sub-attempt fails, `retryLoop` sleeps once per sub-attempt —
including the final one — and then re-raises. -/
lemma retryLoop_all_err (net : Nat → NetResult) :
    ∀ (f a : Nat), (∀ i, a ≤ i → i < a + f → net i = .err) →
      retryLoop net a f = ((List.range f).map (fun j => backoff (a + j)), none) := by
  intro f
  induction f with
  | zero => intro a _; simp [retryLoop]
  | succ f ih =>
    intro a h
    rw [retryLoop_err net a f (h a le_rfl (by omega))]
    rw [ih (a + 1) (fun i h1 h2 => h i (by omega) (by omega))]
    rw [List.range_succ_eq_map]
    simp only [List.map_cons, List.map_map, Nat.add_zero]
    refine congrArg (fun x => (x, (none : Option HttpResp))) ?_
    refine congrArg (List.cons (backoff a)) ?_
    apply List.map_congr_left
    intro j _
    refine congrArg backoff ?_
    simp [Function.comp]
    omega

/-- The instances selected by the dispatch loop form a sublist of the
consecutive cycle picks. -/
lemma forward_loop_attempted_sublist (l : List String) (net : Nat → Nat → NetResult)
    (times : Nat → Nat) :
    ∀ (fuel i c : Nat) (b : Breaker),
      (forward_loop l net times i fuel c b).attempted.Sublist (picksFrom l c fuel) := by
  intro fuel
  induction fuel with
  | zero => intro i c b; simp [forward_loop, picksFrom]
  | succ f ih =>
    intro i c b
    simp only [forward_loop]
    cases hcp : cyclePick l c with
    | none => simp [picksFrom]
    | some inst =>
      simp only [picksFrom, hcp, Option.getD_some]
      cases hbc : (breakerCall b (times i) (call_upstream (net i)).2).1 with
      | resp r => simp [hbc]
      | cbError => simp [hbc]
      | netError =>
        simp only [hbc]
        exact (ih (i + 1) (c + 1) _).cons₂ inst

lemma picksFrom_length (l : List String) :
    ∀ (k c : Nat), (picksFrom l c k).length = k := by
  intro k
  induction k with
  | zero => intro c; simp [picksFrom]
  | succ k ih => intro c; simp [picksFrom, ih]

lemma mem_picksFrom (l : List String) :
    ∀ (k c : Nat) (x : String), x ∈ picksFrom l c k →
      ∃ j, j < k ∧ x = (cyclePick l (c + j)).getD "" := by
  intro k
  induction k with
  | zero => intro c x hx; simp [picksFrom] at hx
  | succ k ih =>
    intro c x hx
    simp only [picksFrom, List.mem_cons] at hx
    rcases hx with hx | hx
    · exact ⟨0, by omega, by simpa using hx⟩
    · obtain ⟨j, hj, hxe⟩ := ih (c + 1) x hx
      exact ⟨j + 1, by omega, by rw [show c + (j + 1) = c + 1 + j by omega]; exact hxe⟩

/-- Within one wrap of the cycle, consecutive picks from a duplicate-free
instance list are pairwise distinct. -/
lemma picksFrom_nodup (l : List String) (hl : l.Nodup) :
    ∀ (k : Nat), k ≤ l.length → ∀ (c : Nat), (picksFrom l c k).Nodup := by
  intro k
  induction k with
  | zero => intro _ c; simp [picksFrom]
  | succ k ih =>
    intro hk c
    have hpos : 0 < l.length := by omega
    simp only [picksFrom, List.nodup_cons]
    refine ⟨?_, ih (by omega) (c + 1)⟩
    intro hmem
    obtain ⟨j, hj, hxe⟩ := mem_picksFrom l k (c + 1) _ hmem
    rw [cyclePick_eq_getElem l c hpos, cyclePick_eq_getElem l (c + 1 + j) hpos] at hxe
    simp only [Option.getD_some, List.get_eq_getElem] at hxe
    have hidx : c % l.length = (c + 1 + j) % l.length := hl.getElem_inj_iff.mp hxe
    have h1 : (c + (j + 1)) % l.length = (c + 0) % l.length := by
      rw [show c + (j + 1) = c + 1 + j by omega, Nat.add_zero]
      exact hidx.symm
    have h2 : (j + 1) ≡ 0 [MOD l.length] := Nat.ModEq.add_left_cancel' c h1
    have h3 : l.length ∣ (j + 1) := Nat.modEq_zero_iff_dvd.mp h2
    have h4 := Nat.le_of_dvd (by omega) h3
    omega

/-- Before the cycle wraps, consecutive picks walk the configured list. -/
lemma selectorRun_eq_take (l : List String) :
    ∀ (k c : Nat), c + k ≤ l.length →
      selectorRun l c k = ((l.drop c).take k).map some := by
  intro k
  induction k with
  | zero => intro c _; simp [selectorRun]
  | succ k ih =>
    intro c hck
    have hc : c < l.length := by omega
    simp only [selectorRun, cyclePick, Nat.mod_eq_of_lt hc,
      List.getElem?_eq_getElem hc]
    rw [List.drop_eq_getElem_cons hc, List.take_succ_cons, List.map_cons]
    exact congrArg _ (ih (c + 1) (by omega))

/-- The dispatch loop never produces the "Unknown service" outcome. -/
lemma forward_loop_result_ne_unknown (l : List String) (net : Nat → Nat → NetResult)
    (times : Nat → Nat) :
    ∀ (fuel i c : Nat) (b : Breaker),
      (forward_loop l net times i fuel c b).result ≠ .unknownService := by
  intro fuel
  induction fuel with
  | zero => intro i c b; simp [forward_loop]
  | succ f ih =>
    intro i c b
    simp only [forward_loop]
    cases hcp : cyclePick l c with
    | none => simp
    | some inst =>
      cases hbc : (breakerCall b (times i) (call_upstream (net i)).2).1 with
      | resp r => simp [hbc]
      | cbError => simp [hbc]
      | netError => simp only [hbc]; exact ih (i + 1) (c + 1) _

/-- The breaker map built at startup holds exactly the registry's keys. -/
lemma initState_breakers_lookup (registry : List (String × List String)) (k : String) :
    List.lookup k (initState registry).breakers =
      (List.lookup k registry).map (fun _ => breakerInit) := by
  induction registry with
  | nil => simp [initState]
  | cons p t ih =>
    simp only [initState, List.map_cons, List.lookup]
    cases hk : k == p.1 with
    | true => rfl
    | false => exact ih

/-- The cycle map built at startup holds exactly the registry's keys. -/
lemma initState_cursors_lookup (registry : List (String × List String)) (k : String) :
    List.lookup k (initState registry).cursors =
      (List.lookup k registry).map (fun _ => 0) := by
  induction registry with
  | nil => simp [initState]
  | cons p t ih =>
    simp only [initState, List.map_cons, List.lookup]
    cases hk : k == p.1 with
    | true => rfl
    | false => exact ih

/-! Claim theorems. -/

/-- C1 counterexample: with two instances and the service's breaker Open
inside its reset window, `forward_request` returns the 503 "Upstream circuit
open" response after the first rejection — the dispatch terminates and the
second instance is never attempted, contrary to the claim that the dispatcher
records the skip and proceeds to the next instance. -/
theorem c1_counterexample :
    forward_request ["a", "b"] ⟨.opened, 5, 100⟩ allFailNet2 zeroTimes 0 =
      ⟨["a"], [], .circuitOpen, 1, ⟨.opened, 5, 100⟩⟩ := by decide

/-- C1 amended: when the circuit breaker rejects the attempt because it is
Open (reset timeout not yet elapsed), the dispatcher immediately returns the
503 "Upstream circuit open" response: exactly one instance is selected, no
further instance is attempted, no backoff sleep occurs, and the breaker is
left unchanged. -/
theorem c1_amended (l : List String) (b : Breaker) (net : Nat → Nat → NetResult)
    (times : Nat → Nat) (cursor : Nat) (hl : 0 < l.length) (hb : b.state = .opened)
    (ht : times 0 < b.openedAt + CB_RESET_TIMEOUT) :
    (forward_request l b net times cursor).result = .circuitOpen ∧
    (forward_request l b net times cursor).attempted = [(cyclePick l cursor).getD ""] ∧
    (forward_request l b net times cursor).sleeps = [] ∧
    (forward_request l b net times cursor).cursor = cursor + 1 ∧
    (forward_request l b net times cursor).breaker = b := by
  obtain ⟨f, hf⟩ : ∃ f, l.length = f + 1 := ⟨l.length - 1, by omega⟩
  obtain ⟨x, hx⟩ := cyclePick_isSome l cursor hl
  unfold forward_request
  rw [hf]
  simp only [forward_loop, hx, Option.getD_some]
  simp [breakerCall, hb, ht]

/-- C1 amended, witness at a concrete open breaker. -/
theorem c1_amended_witness :
    (forward_request ["a", "b"] ⟨.opened, 5, 100⟩ allFailNet2 zeroTimes 7).result = .circuitOpen ∧
    (forward_request ["a", "b"] ⟨.opened, 5, 100⟩ allFailNet2 zeroTimes 7).attempted =
      [(cyclePick ["a", "b"] 7).getD ""] ∧
    (forward_request ["a", "b"] ⟨.opened, 5, 100⟩ allFailNet2 zeroTimes 7).sleeps = [] ∧
    (forward_request ["a", "b"] ⟨.opened, 5, 100⟩ allFailNet2 zeroTimes 7).cursor = 7 + 1 ∧
    (forward_request ["a", "b"] ⟨.opened, 5, 100⟩ allFailNet2 zeroTimes 7).breaker =
      ⟨.opened, 5, 100⟩ :=
  c1_amended ["a", "b"] ⟨.opened, 5, 100⟩ allFailNet2 zeroTimes 7 (by decide) rfl (by decide)

/-- C2: within one dispatch call, the selected instances are pairwise
distinct (for a duplicate-free configured instance list) and their number is
bounded by the instance count N — the attempt budget of the loop
`for attempt in range(len(SERVICES.get(service, [])))`. -/
theorem c2_no_duplicate_attempts (l : List String) (b : Breaker)
    (net : Nat → Nat → NetResult) (times : Nat → Nat) (cursor : Nat) (hl : l.Nodup) :
    (forward_request l b net times cursor).attempted.Nodup ∧
    (forward_request l b net times cursor).attempted.length ≤ l.length := by
  have hsub := forward_loop_attempted_sublist l net times l.length 0 cursor b
  constructor
  · exact List.Nodup.sublist hsub (picksFrom_nodup l hl l.length le_rfl cursor)
  · have hle := hsub.length_le
    rwa [picksFrom_length l l.length cursor] at hle

/-- C2 witness: the users service with every attempt failing attempts both
instances, without duplicates. -/
theorem c2_witness :
    (forward_request ["http://localhost:5001", "http://localhost:5003"] breakerInit
        allFailNet2 zeroTimes 0).attempted.Nodup ∧
    (forward_request ["http://localhost:5001", "http://localhost:5003"] breakerInit
        allFailNet2 zeroTimes 0).attempted.length ≤
      (["http://localhost:5001", "http://localhost:5003"] : List String).length :=
  c2_no_duplicate_attempts _ breakerInit allFailNet2 zeroTimes 0 (by decide)

/-- C3: for every registered service, starting from the initial cursor, N
consecutive selector calls return each configured instance exactly once, in
configured order, and the (N+1)-th call returns the first instance again. -/
theorem c3_round_robin (svc : String) (l : List String) (h : (svc, l) ∈ SERVICES) :
    selectorRun l 0 l.length = l.map some ∧
    (∀ x ∈ l, (selectorRun l 0 l.length).count (some x) = 1) ∧
    (choose_instance l l.length).1 = l.head? := by
  simp only [SERVICES, List.mem_cons, List.not_mem_nil, or_false,
    Prod.mk.injEq] at h
  rcases h with ⟨rfl, rfl⟩ | ⟨rfl, rfl⟩
  · exact ⟨by decide, by decide, by decide⟩
  · exact ⟨by decide, by decide, by decide⟩

/-- C3 witness at the users service. -/
theorem c3_witness :
    selectorRun ["http://localhost:5001", "http://localhost:5003"] 0
        (["http://localhost:5001", "http://localhost:5003"] : List String).length =
      (["http://localhost:5001", "http://localhost:5003"] : List String).map some ∧
    (selectorRun ["http://localhost:5001", "http://localhost:5003"] 0
        (["http://localhost:5001", "http://localhost:5003"] : List String).length).count
      (some "http://localhost:5001") = 1 ∧
    (choose_instance ["http://localhost:5001", "http://localhost:5003"]
        (["http://localhost:5001", "http://localhost:5003"] : List String).length).1 =
      (["http://localhost:5001", "http://localhost:5003"] : List String).head? := by
  have h := c3_round_robin "users" ["http://localhost:5001", "http://localhost:5003"] (by decide)
  exact ⟨h.1, h.2.1 "http://localhost:5001" (by decide), h.2.2⟩

/-- C4: whenever the guarded call yields an HTTP-level response `r` — of any
status, 4xx/5xx included — and the breaker is Closed, the dispatch returns
that response immediately after a single attempt, and the breaker's failure
counter is reset to 0, not incremented. -/
theorem c4_http_response_is_success (l : List String) (b : Breaker)
    (net : Nat → Nat → NetResult) (times : Nat → Nat) (cursor : Nat) (r : HttpResp)
    (hl : 0 < l.length) (hb : b.state = .closed)
    (hcall : (call_upstream (net 0)).2 = some r) :
    ((forward_request l b net times cursor).result = .response r ∧
      (forward_request l b net times cursor).attempted = [(cyclePick l cursor).getD ""] ∧
      (forward_request l b net times cursor).cursor = cursor + 1 ∧
      (forward_request l b net times cursor).breaker = ⟨.closed, 0, b.openedAt⟩) ∧
    (∀ (b' : Breaker) (now : Nat) (r' : HttpResp),
      (breakerCall b' now (some r')).2.2 = true →
        (breakerCall b' now (some r')).1 = .resp r' ∧
        (breakerCall b' now (some r')).2.1.failCount = 0) := by
  constructor
  · obtain ⟨f, hf⟩ : ∃ f, l.length = f + 1 := ⟨l.length - 1, by omega⟩
    obtain ⟨x, hx⟩ := cyclePick_isSome l cursor hl
    unfold forward_request
    rw [hf]
    simp only [forward_loop, hx, Option.getD_some]
    simp [breakerCall, hb, hcall]
  · intro b' now r' hinv
    cases hst : b'.state with
    | closed => simp [breakerCall, hst]
    | opened =>
      by_cases hto : now < b'.openedAt + CB_RESET_TIMEOUT
      · simp [breakerCall, hst, hto] at hinv
      · simp [breakerCall, hst, hto]
    | halfOpen => simp [breakerCall, hst]

/-- C4 witness: an upstream HTTP 503 error response with a non-zero failure
counter — still a breaker success, counter reset to 0, response mirrored. -/
theorem c4_witness :
    ((forward_request ["http://localhost:5002"] ⟨.closed, 3, 0⟩ err503Net2
        zeroTimes 0).result = .response ⟨503, "server error"⟩ ∧
      (forward_request ["http://localhost:5002"] ⟨.closed, 3, 0⟩ err503Net2
        zeroTimes 0).attempted = [(cyclePick ["http://localhost:5002"] 0).getD ""] ∧
      (forward_request ["http://localhost:5002"] ⟨.closed, 3, 0⟩ err503Net2
        zeroTimes 0).cursor = 0 + 1 ∧
      (forward_request ["http://localhost:5002"] ⟨.closed, 3, 0⟩ err503Net2
        zeroTimes 0).breaker = ⟨.closed, 0, 0⟩) ∧
    ((breakerCall ⟨.halfOpen, 4, 9⟩ 11 (some ⟨500, "oops"⟩)).1 =
        .resp ⟨500, "oops"⟩ ∧
      (breakerCall ⟨.halfOpen, 4, 9⟩ 11 (some ⟨500, "oops"⟩)).2.1.failCount = 0) :=
  ⟨(c4_http_response_is_success ["http://localhost:5002"] ⟨.closed, 3, 0⟩ err503Net2
      zeroTimes 0 ⟨503, "server error"⟩ (by decide) rfl (by decide)).1,
    (c4_http_response_is_success ["http://localhost:5002"] ⟨.closed, 3, 0⟩ err503Net2
      zeroTimes 0 ⟨503, "server error"⟩ (by decide) rfl (by decide)).2
      ⟨.halfOpen, 4, 9⟩ 11 ⟨500, "oops"⟩ (by decide)⟩

/-- C5 counterexample: with every sub-attempt failing, `call_upstream`
performs `RETRIES + 1` sleeps — one after each failed sub-attempt, including
the final one before the exception is re-raised — where the claim allows at
most `RETRIES` sleeps (between consecutive sub-attempts only). -/
theorem c5_counterexample :
    (call_upstream allFailNet).1.length = RETRIES + 1 ∧
    ¬(call_upstream allFailNet).1.length ≤ RETRIES ∧
    (call_upstream allFailNet).2 = none := by decide

/-- C5 amended: on persistent transient errors the dispatcher performs
`RETRIES + 1` sub-attempts on the same instance, sleeping
`BACKOFF_FACTOR * 2 ^ attempt` after every failed sub-attempt — the final
one included — before re-raising; there is no explicit cap, but every sleep
is bounded by `BACKOFF_FACTOR * 2 ^ RETRIES`. -/
theorem c5_amended (net : Nat → NetResult) (h : ∀ i, i ≤ RETRIES → net i = .err) :
    call_upstream net = ((List.range (RETRIES + 1)).map backoff, none) ∧
    ∀ s ∈ (call_upstream net).1, s ≤ BACKOFF_FACTOR * 2 ^ RETRIES := by
  have he : call_upstream net =
      ((List.range (RETRIES + 1)).map (fun j => backoff (0 + j)), none) :=
    retryLoop_all_err net (RETRIES + 1) 0 (fun i _ h2 => h i (by omega))
  simp only [Nat.zero_add] at he
  refine ⟨he, ?_⟩
  rw [he]
  intro s hs
  simp only [List.mem_map, List.mem_range] at hs
  obtain ⟨j, hj, rfl⟩ := hs
  unfold backoff
  have h2j : (2 : ℚ) ^ j ≤ 2 ^ RETRIES := by
    apply pow_le_pow_right₀ (by norm_num)
    omega
  have hpos : (0 : ℚ) ≤ BACKOFF_FACTOR := by norm_num [BACKOFF_FACTOR]
  exact mul_le_mul_of_nonneg_left h2j hpos

/-- C5 amended, witness on the all-failures oracle. -/
theorem c5_amended_witness :
    call_upstream allFailNet = ((List.range (RETRIES + 1)).map backoff, none) ∧
    backoff 2 ≤ BACKOFF_FACTOR * 2 ^ RETRIES := by
  have h := c5_amended allFailNet (fun _ _ => rfl)
  refine ⟨h.1, h.2 (backoff 2) ?_⟩
  rw [h.1]
  exact List.mem_map_of_mem backoff (by decide)

/-- C6 counterexample: a registry with an empty-instance service initialises
without error (`itertools.cycle([])` is accepted), and an authenticated
request to that service passes the route's registry check, reaches
`forward_request`, and gets the lazily-produced 502 "All upstream instances
failed" — contrary to the claim that startup refuses such a config and the
request never reaches the dispatch path. -/
theorem c6_counterexample :
    (handle_proxy emptyRegistry noClaimDecode allFailNet2 zeroTimes
        (initState emptyRegistry) (some "Bearer token") "svc" "x").status = 502 ∧
    (handle_proxy emptyRegistry noClaimDecode allFailNet2 zeroTimes
        (initState emptyRegistry) (some "Bearer token") "svc" "x").attempted = [] ∧
    (forward_request_gw emptyRegistry (initState emptyRegistry) "svc" allFailNet2
        zeroTimes).result = .allFailed := by decide

/-- C6 amended: a service configured with an empty instance list does not
prevent startup; an authenticated request to it reaches `forward_request`,
whose loop body never runs, and the request is answered 502 "All upstream
instances failed" — the no-instances condition is discovered lazily, per
request. -/
theorem c6_amended (registry : List (String × List String))
    (decode : String → DecodeOutcome) (net : Nat → Nat → NetResult)
    (times : Nat → Nat) (auth : Option String) (service path : String)
    (p : List (String × String))
    (hreg : List.lookup service registry = some [])
    (hh : strStarts ("/" ++ service ++ "/" ++ path) "/health" = false)
    (hm : strStarts ("/" ++ service ++ "/" ++ path) "/metrics" = false)
    (hauth : authenticate decode auth = .proceed p) :
    (handle_proxy registry decode net times (initState registry) auth service
      path).status = 502 ∧
    (handle_proxy registry decode net times (initState registry) auth service
      path).attempted = [] ∧
    (forward_request_gw registry (initState registry) service net
      times).result = .allFailed := by
  have hb := initState_breakers_lookup registry service
  have hc := initState_cursors_lookup registry service
  rw [hreg] at hb hc
  simp only [Option.map_some'] at hb hc
  have hgw : (forward_request_gw registry (initState registry) service net
        times).result = .allFailed ∧
      (forward_request_gw registry (initState registry) service net
        times).attempted = [] := by
    simp [forward_request_gw, hb, hc, hreg, forward_request, forward_loop]
  refine ⟨?_, ?_, hgw.1⟩
  · simp [handle_proxy, hh, hm, hauth, hreg, hgw.1, statusOf]
  · simp [handle_proxy, hh, hm, hauth, hreg, hgw.2]

/-- C6 amended, witness on the empty-instance registry. -/
theorem c6_amended_witness :
    (handle_proxy emptyRegistry noClaimDecode okNet2 zeroTimes
        (initState emptyRegistry) (some "Bearer tok") "svc" "y").status = 502 ∧
    (handle_proxy emptyRegistry noClaimDecode okNet2 zeroTimes
        (initState emptyRegistry) (some "Bearer tok") "svc" "y").attempted = [] ∧
    (forward_request_gw emptyRegistry (initState emptyRegistry) "svc" okNet2
        zeroTimes).result = .allFailed :=
  c6_amended emptyRegistry noClaimDecode okNet2 zeroTimes (some "Bearer tok")
    "svc" "y" [] (by decide) (by decide) (by decide) (by decide)

/-- C7 counterexample: a token whose verified payload carries no
tenant/profile field at all is accepted by `authenticate` (there is no
MissingClaim check in the code) and the request is forwarded to an upstream
instance rather than rejected. -/
theorem c7_counterexample :
    authenticate noClaimDecode (some "Bearer token") = .proceed [] ∧
    (handle_proxy SERVICES noClaimDecode okNet2 zeroTimes st0
        (some "Bearer token") "users" "profile").status = 200 ∧
    (handle_proxy SERVICES noClaimDecode okNet2 zeroTimes st0
        (some "Bearer token") "users" "profile").attempted =
      ["http://localhost:5001"] := by decide

/-- C7 amended: `verify_jwt_from_header` returns the decoded payload without
examining any claim field: every bearer token that decodes successfully is
accepted, whatever its payload, and no MissingClaim error path exists. -/
theorem c7_amended (decode : String → DecodeOutcome) (a : String)
    (p : List (String × String)) (hB : strStarts a "Bearer " = true)
    (hdec : decode (strTrim (strDrop a 7)) = .ok p) :
    authenticate decode (some a) = .proceed p := by
  have hne : a ≠ "" := by
    intro he
    rw [he] at hB
    exact absurd hB (by decide)
  simp [authenticate, hne, hB, hdec]

/-- C7 amended, witness on a payload with no tenant/profile field. -/
theorem c7_amended_witness :
    authenticate noClaimDecode (some "Bearer abc") = .proceed [] :=
  c7_amended noClaimDecode "Bearer abc" [] (by decide) (by decide)

/-- C8 counterexample: the forwarded headers are exactly the request headers
minus the hop-by-hop fields — no identifying tenant/profile header is added
(the claim injection at lines 73-74 of `app.py` is commented out). -/
theorem c8_counterexample :
    build_forward_headers [("Host", "gateway"), ("Accept", "application/json")] =
      [("Accept", "application/json")] ∧
    (build_forward_headers
        [("Host", "gateway"), ("Accept", "application/json")]).map Prod.fst =
      ["Accept"] := by decide

/-- C8 amended: a header is forwarded if and only if it already appears in
the inbound request and its lower-cased name is none of Host, Content-Length,
Transfer-Encoding, Connection, Keep-Alive; in particular the gateway adds no
identifying header. -/
theorem c8_amended (hs : List (String × String)) (kv : String × String) :
    kv ∈ build_forward_headers hs ↔
      kv ∈ hs ∧ HOP_HEADERS.contains (strLower kv.1) = false := by
  simp [build_forward_headers, List.mem_filter, Bool.not_eq_true']

/-- C8 amended, witness at a concrete header set. -/
theorem c8_amended_witness :
    ("Accept", "application/json") ∈
        build_forward_headers [("Host", "gateway"), ("Accept", "application/json")] ↔
      ("Accept", "application/json") ∈
          [("Host", "gateway"), ("Accept", "application/json")] ∧
        HOP_HEADERS.contains (strLower "Accept") = false :=
  c8_amended [("Host", "gateway"), ("Accept", "application/json")]
    ("Accept", "application/json")

/-- C9: a request to a non-exempt path whose `authenticate` hook does not
proceed — missing or malformed bearer token included — is answered 401 with
no instance attempted and the whole gateway state (every service's breaker
and cursor) unchanged. -/
theorem c9_auth_reject_no_side_effects (registry : List (String × List String))
    (decode : String → DecodeOutcome) (net : Nat → Nat → NetResult)
    (times : Nat → Nat) (st : GatewayState) (auth : Option String)
    (service path : String)
    (hh : strStarts ("/" ++ service ++ "/" ++ path) "/health" = false)
    (hm : strStarts ("/" ++ service ++ "/" ++ path) "/metrics" = false)
    (hauth : ∀ p, authenticate decode auth ≠ .proceed p) :
    handle_proxy registry decode net times st auth service path = ⟨401, [], [], st⟩ := by
  cases hA : authenticate decode auth with
  | proceed p => exact absurd hA (hauth p)
  | missingAuth => simp [handle_proxy, hh, hm, hA]
  | invalidToken => simp [handle_proxy, hh, hm, hA]
  | jwtError => simp [handle_proxy, hh, hm, hA]

/-- C9 witness: a request with no Authorization header at all. -/
theorem c9_witness :
    handle_proxy SERVICES badDecode okNet2 zeroTimes st0 none "users" "x" =
      ⟨401, [], [], st0⟩ :=
  c9_auth_reject_no_side_effects SERVICES badDecode okNet2 zeroTimes st0 none
    "users" "x" (by decide) (by decide)
    (fun p h => by simp [authenticate] at h)

/-- C10: dispatch never answers the 502 "Unknown service" once a breaker
exists for the service; the startup breaker map has a breaker for exactly
every registered service; and an authenticated request naming an
unregistered service is answered 404 by the route handler before any
dispatch, so through the proxy route the "Unknown service" branch is
unreachable. -/
theorem c10_unknown_service_unreachable (registry : List (String × List String))
    (decode : String → DecodeOutcome) (net : Nat → Nat → NetResult)
    (times : Nat → Nat) (st : GatewayState) (auth : Option String)
    (service path : String) :
    ((List.lookup service st.breakers).isSome →
      (forward_request_gw registry st service net times).result ≠ .unknownService) ∧
    ((List.lookup service registry).isSome →
      (List.lookup service (initState registry).breakers).isSome) ∧
    (List.lookup service registry = none →
      strStarts ("/" ++ service ++ "/" ++ path) "/health" = false →
      strStarts ("/" ++ service ++ "/" ++ path) "/metrics" = false →
      (∃ p, authenticate decode auth = .proceed p) →
      handle_proxy registry decode net times st auth service path =
        ⟨404, [], [], st⟩) := by
  refine ⟨?_, ?_, ?_⟩
  · intro h
    obtain ⟨b, hb⟩ := Option.isSome_iff_exists.mp h
    simp only [forward_request_gw, hb]
    cases hcur : List.lookup service st.cursors with
    | none =>
      by_cases hlen : ((List.lookup service registry).getD []).length = 0
      · simp [hlen]
      · simp [hlen]
    | some cursor =>
      simp only [forward_request]
      exact forward_loop_result_ne_unknown _ net times _ 0 cursor b
  · intro h
    obtain ⟨v, hv⟩ := Option.isSome_iff_exists.mp h
    rw [initState_breakers_lookup registry service, hv]
    rfl
  · rintro hlk hh hm ⟨p, hp⟩
    simp [handle_proxy, hh, hm, hp, hlk]

/-- C10 witness: a registered and an unregistered service on the real
config. -/
theorem c10_witness :
    (forward_request_gw SERVICES st0 "users" okNet2 zeroTimes).result ≠
        .unknownService ∧
    (List.lookup "users" (initState SERVICES).breakers).isSome ∧
    handle_proxy SERVICES noClaimDecode okNet2 zeroTimes st0 (some "Bearer t")
        "ghost" "x" = ⟨404, [], [], st0⟩ := by
  refine ⟨?_, ?_, ?_⟩
  · exact (c10_unknown_service_unreachable SERVICES noClaimDecode okNet2
      zeroTimes st0 (some "Bearer t") "users" "x").1 (by decide)
  · exact (c10_unknown_service_unreachable SERVICES noClaimDecode okNet2
      zeroTimes st0 (some "Bearer t") "users" "x").2.1 (by decide)
  · exact (c10_unknown_service_unreachable SERVICES noClaimDecode okNet2
      zeroTimes st0 (some "Bearer t") "ghost" "x").2.2 (by decide) (by decide)
      (by decide) ⟨[], by decide⟩

end F2B
